import Mathlib

/-
Verification of the Sand chess engine against its natural-language
specification.  The definitions below are a shallow embedding of the
Rust sources (src/src/chess and src/src/engine): 64-bit words are
modelled as Nat with explicit reduction modulo 2^64 where the source
can overflow, signed machine integers as Int, fallible functions as
Except, and the mailbox as a total function on square numbers (the
source panics on an out-of-range index; the embedding is only relied
upon at in-range inputs).
-/

namespace Sand

/-- Modulus of a 64-bit machine word. -/
def M64 : Nat := 18446744073709551616

/-- Left shift of a u64, wrapping modulo 2^64 as the Rust shl does on u64. -/
def shl64 (a b : Nat) : Nat := (a <<< b) % M64

/-- Bitwise complement of a u64 (the Rust not operator on u64). -/
def u64not (a : Nat) : Nat := (M64 - 1) ^^^ a

/-- Structural worker for count_ones; the input halves each step, so using
the value itself as fuel makes the recursion exact on every input. -/
def count_ones_go : Nat → Nat → Nat
  | _, 0 => 0
  | n, fuel + 1 => if n = 0 then 0 else n % 2 + count_ones_go (n / 2) fuel

/-- Number of set bits, as u64 count_ones. -/
def count_ones (n : Nat) : Nat := count_ones_go n n

/-- Structural worker for tz; the input halves each step, so using the value
itself as fuel makes the recursion exact on every input. -/
def tz_go : Nat → Nat → Nat
  | _, 0 => 64
  | n, fuel + 1 =>
    if n = 0 then 64
    else if n % 2 = 1 then 0
    else tz_go (n / 2) fuel + 1

/-- Index of the lowest set bit, as u64 trailing_zeros; 64 on zero input. -/
def tz (n : Nat) : Nat := tz_go n n

/-- Structural worker for ones; each step clears one set bit, which lowers
the value, so using the value itself as fuel makes the recursion exact. -/
def ones_go : Nat → Nat → List Nat
  | _, 0 => []
  | bb, fuel + 1 => if bb = 0 then [] else tz bb :: ones_go (bb &&& (bb - 1)) fuel

/-- List of indices of the set bits of a word, in increasing order.  This is
the ones_iter iterator of board.rs: repeatedly take trailing_zeros and clear
the lowest set bit. -/
def ones (bb : Nat) : List Nat := ones_go bb bb

/-- Color enum from board.rs. -/
inductive Color
  | White
  | Black
deriving DecidableEq, Repr

/-- Toggle operation on Color (board.rs indexes a two-element array with
the value xored with 1, which is exactly the swap). -/
def Color.toggle : Color → Color
  | .White => .Black
  | .Black => .White

/-- Piece enum from board.rs, with the sentinel None variant. -/
inductive Piece
  | Pawn
  | Knight
  | Bishop
  | Rook
  | Queen
  | King
  | None
deriving DecidableEq, Repr

/-- Piece.from_char of board.rs. -/
def Piece.from_char (c : Char) : Except String Piece :=
  match c.toLower with
  | 'p' => .ok .Pawn
  | 'n' => .ok .Knight
  | 'b' => .ok .Bishop
  | 'r' => .ok .Rook
  | 'q' => .ok .Queen
  | 'k' => .ok .King
  | _ => .error "invalid character"

/-- Numeric discriminant of a Piece, as the Rust enum representation. -/
def Piece.toIdx : Piece → Nat
  | .Pawn => 0
  | .Knight => 1
  | .Bishop => 2
  | .Rook => 3
  | .Queen => 4
  | .King => 5
  | .None => 6

/-- Numeric discriminant of a Color. -/
def Color.toIdx : Color → Nat
  | .White => 0
  | .Black => 1

/-- PIECE_TYPES constant of board.rs: the six real piece kinds. -/
def PIECE_TYPES : List Piece := [.Pawn, .Knight, .Bishop, .Rook, .Queen, .King]

/-- Castling right bit masks from board.rs. -/
def Castling.WK : Nat := 1
def Castling.WQ : Nat := 2
def Castling.BK : Nat := 4
def Castling.BQ : Nat := 8

/-- Tapered midgame/endgame weight pair, struct W of evaluation.rs. -/
structure W where
  mg : Int
  eg : Int
deriving DecidableEq, Repr

/-- Componentwise addition of W (the AddAssign impl). -/
def W.add (a b : W) : W := ⟨a.mg + b.mg, a.eg + b.eg⟩

/-- Componentwise subtraction of W (the SubAssign impl). -/
def W.sub (a b : W) : W := ⟨a.mg - b.mg, a.eg - b.eg⟩

/-- PIECE_VALUES of evaluation.rs; seven entries, the last for Piece::None. -/
def PIECE_VALUES : Piece → Int
  | .Pawn => 100
  | .Knight => 320
  | .Bishop => 330
  | .Rook => 500
  | .Queen => 900
  | .King => 20000
  | .None => 0

/-- PHASE_VALUE of evaluation.rs; the source array has six entries, so the
None row is an out-of-bounds panic there and is never used here under the
stated hypotheses. -/
def PHASE_VALUE : Piece → Nat
  | .Pawn => 0
  | .Knight => 1
  | .Bishop => 1
  | .Rook => 2
  | .Queen => 4
  | .King => 0
  | .None => 0

/-- TOTAL_PHASE of evaluation.rs, written as the source computes it. -/
def TOTAL_PHASE : Nat :=
  PHASE_VALUE .Pawn * 16 + PHASE_VALUE .Knight * 4 + PHASE_VALUE .Bishop * 4 +
    PHASE_VALUE .Rook * 4 + PHASE_VALUE .Queen * 2

/-- PHASE_SCALE of evaluation.rs. -/
def PHASE_SCALE : Nat := 256
/-- PST table for the pawn, transcribed from Board::PST in evaluation.rs. -/
def PST_PAWN : List W := [
  W.mk 0 0, W.mk 0 0, W.mk 0 0, W.mk 0 0, W.mk 0 0, W.mk 0 0, W.mk 0 0, W.mk 0 0,
  W.mk 98 178, W.mk 134 173, W.mk 61 158, W.mk 95 134, W.mk 68 147, W.mk 126 132, W.mk 34 165, W.mk (-11) 187,
  W.mk (-6) 94, W.mk 7 100, W.mk 26 85, W.mk 31 67, W.mk 65 56, W.mk 56 53, W.mk 25 82, W.mk (-20) 84,
  W.mk (-14) 32, W.mk 13 24, W.mk 6 13, W.mk 21 5, W.mk 23 (-2), W.mk 12 4, W.mk 17 17, W.mk (-23) 17,
  W.mk (-27) 13, W.mk (-2) 9, W.mk (-5) (-3), W.mk 12 (-7), W.mk 17 (-7), W.mk 6 (-8), W.mk 10 3, W.mk (-25) (-1),
  W.mk (-26) 4, W.mk (-4) 7, W.mk (-4) (-6), W.mk (-10) 1, W.mk 3 0, W.mk 3 (-5), W.mk 33 (-1), W.mk (-12) (-8),
  W.mk (-35) 13, W.mk (-1) 8, W.mk (-20) 8, W.mk (-23) 10, W.mk (-15) 13, W.mk 24 0, W.mk 38 2, W.mk (-22) (-7),
  W.mk 0 0, W.mk 0 0, W.mk 0 0, W.mk 0 0, W.mk 0 0, W.mk 0 0, W.mk 0 0, W.mk 0 0]

/-- PST table for the knight, transcribed from Board::PST in evaluation.rs. -/
def PST_KNIGHT : List W := [
  W.mk (-167) (-58), W.mk (-89) (-38), W.mk (-34) (-13), W.mk (-49) (-28), W.mk 61 (-31), W.mk (-97) (-27), W.mk (-15) (-63), W.mk (-107) (-99),
  W.mk (-73) (-25), W.mk (-41) (-8), W.mk 72 (-25), W.mk 36 (-2), W.mk 23 (-9), W.mk 62 (-25), W.mk 7 (-24), W.mk (-17) (-52),
  W.mk (-47) (-24), W.mk 60 (-20), W.mk 37 10, W.mk 65 9, W.mk 84 (-1), W.mk 129 (-9), W.mk 73 (-19), W.mk 44 (-41),
  W.mk (-9) (-17), W.mk 17 3, W.mk 19 22, W.mk 53 22, W.mk 37 22, W.mk 69 11, W.mk 18 8, W.mk 22 (-18),
  W.mk (-13) (-18), W.mk 4 (-6), W.mk 16 16, W.mk 13 25, W.mk 28 16, W.mk 19 17, W.mk 21 4, W.mk (-8) (-18),
  W.mk (-23) (-23), W.mk (-9) (-3), W.mk 12 (-1), W.mk 10 15, W.mk 19 10, W.mk 17 (-3), W.mk 25 (-20), W.mk (-16) (-22),
  W.mk (-29) (-42), W.mk (-53) (-20), W.mk (-12) (-10), W.mk (-3) (-5), W.mk (-1) (-2), W.mk 18 (-20), W.mk (-14) (-23), W.mk (-19) (-44),
  W.mk (-105) (-29), W.mk (-21) (-51), W.mk (-58) (-23), W.mk (-33) (-15), W.mk (-17) (-22), W.mk (-28) (-18), W.mk (-19) (-50), W.mk (-23) (-64)]

/-- PST table for the bishop, transcribed from Board::PST in evaluation.rs. -/
def PST_BISHOP : List W := [
  W.mk (-29) (-14), W.mk 4 (-21), W.mk (-82) (-11), W.mk (-37) (-8), W.mk (-25) (-7), W.mk (-42) (-9), W.mk 7 (-17), W.mk (-8) (-24),
  W.mk (-26) (-8), W.mk 16 (-4), W.mk (-18) 7, W.mk (-13) (-12), W.mk 30 (-3), W.mk 59 (-13), W.mk 18 (-4), W.mk (-47) (-14),
  W.mk (-16) 2, W.mk 37 (-8), W.mk 43 0, W.mk 40 (-1), W.mk 35 (-2), W.mk 50 6, W.mk 37 0, W.mk (-2) 4,
  W.mk (-4) (-3), W.mk 5 9, W.mk 19 12, W.mk 50 9, W.mk 37 14, W.mk 37 10, W.mk 7 3, W.mk (-2) 2,
  W.mk (-6) (-6), W.mk 13 3, W.mk 13 13, W.mk 26 19, W.mk 34 7, W.mk 12 10, W.mk 10 (-3), W.mk 4 (-9),
  W.mk 0 (-12), W.mk 15 (-3), W.mk 15 8, W.mk 15 10, W.mk 14 13, W.mk 27 3, W.mk 18 (-7), W.mk 10 (-15),
  W.mk 4 (-14), W.mk 15 (-18), W.mk 16 (-7), W.mk 0 (-1), W.mk 7 4, W.mk 21 (-9), W.mk 33 (-15), W.mk 1 (-27),
  W.mk (-33) (-23), W.mk (-3) (-9), W.mk (-14) (-23), W.mk (-21) (-5), W.mk (-13) (-9), W.mk (-12) (-16), W.mk (-39) (-5), W.mk (-21) (-17)]

/-- PST table for the rook, transcribed from Board::PST in evaluation.rs. -/
def PST_ROOK : List W := [
  W.mk 32 13, W.mk 42 10, W.mk 32 18, W.mk 51 15, W.mk 63 12, W.mk 9 12, W.mk 31 8, W.mk 43 5,
  W.mk 27 11, W.mk 32 13, W.mk 58 13, W.mk 62 11, W.mk 80 (-3), W.mk 67 3, W.mk 26 8, W.mk 44 3,
  W.mk (-5) 7, W.mk 19 7, W.mk 26 7, W.mk 36 5, W.mk 17 4, W.mk 45 (-3), W.mk 61 (-5), W.mk 16 (-3),
  W.mk (-24) 4, W.mk (-11) 3, W.mk 7 13, W.mk 26 1, W.mk 24 2, W.mk 35 1, W.mk (-8) (-1), W.mk (-20) 2,
  W.mk (-36) 3, W.mk (-26) 5, W.mk (-12) 8, W.mk (-1) 4, W.mk 9 (-5), W.mk (-7) (-6), W.mk 6 (-8), W.mk (-23) (-11),
  W.mk (-45) (-4), W.mk (-25) 0, W.mk (-16) (-5), W.mk (-17) (-1), W.mk 3 (-7), W.mk 0 (-12), W.mk (-5) (-8), W.mk (-33) (-16),
  W.mk (-44) (-6), W.mk (-16) (-6), W.mk (-20) 0, W.mk (-9) 2, W.mk (-1) (-9), W.mk 11 (-9), W.mk (-6) (-11), W.mk (-71) (-3),
  W.mk (-19) (-9), W.mk (-13) 2, W.mk 1 3, W.mk 17 (-1), W.mk 16 (-5), W.mk 7 (-13), W.mk (-37) 4, W.mk (-26) (-20)]

/-- PST table for the queen, transcribed from Board::PST in evaluation.rs. -/
def PST_QUEEN : List W := [
  W.mk (-28) (-9), W.mk 0 22, W.mk 29 22, W.mk 12 27, W.mk 59 27, W.mk 44 19, W.mk 43 10, W.mk 45 20,
  W.mk (-24) (-17), W.mk (-39) 20, W.mk (-5) 32, W.mk 1 41, W.mk (-16) 58, W.mk 57 25, W.mk 28 30, W.mk 54 0,
  W.mk (-13) (-20), W.mk (-17) 6, W.mk 7 9, W.mk 8 49, W.mk 29 47, W.mk 56 35, W.mk 47 19, W.mk 57 9,
  W.mk (-27) 3, W.mk (-27) 22, W.mk (-16) 24, W.mk (-16) 45, W.mk (-1) 57, W.mk 17 40, W.mk (-2) 57, W.mk 1 36,
  W.mk (-9) (-18), W.mk (-26) 28, W.mk (-9) 19, W.mk (-10) 47, W.mk (-2) 31, W.mk (-4) 34, W.mk 3 39, W.mk (-3) 23,
  W.mk (-14) (-16), W.mk 2 (-27), W.mk (-11) 15, W.mk (-2) 6, W.mk (-5) 9, W.mk 2 17, W.mk 14 10, W.mk 5 5,
  W.mk (-35) (-22), W.mk (-8) (-23), W.mk 11 (-30), W.mk 2 (-16), W.mk 8 (-16), W.mk 15 (-23), W.mk (-3) (-36), W.mk 1 (-32),
  W.mk (-1) (-33), W.mk (-18) (-28), W.mk (-9) (-22), W.mk 10 (-43), W.mk (-15) (-5), W.mk (-25) (-32), W.mk (-31) (-20), W.mk (-50) (-41)]

/-- PST table for the king, transcribed from Board::PST in evaluation.rs. -/
def PST_KING : List W := [
  W.mk (-65) (-74), W.mk 23 (-35), W.mk 16 (-18), W.mk (-15) (-18), W.mk (-56) (-11), W.mk (-34) 15, W.mk 2 4, W.mk 13 (-17),
  W.mk 29 (-12), W.mk (-1) 17, W.mk (-20) 14, W.mk (-7) 17, W.mk (-8) 17, W.mk (-4) 38, W.mk (-38) 23, W.mk (-29) 11,
  W.mk (-9) 10, W.mk 24 17, W.mk 2 23, W.mk (-16) 15, W.mk (-20) 20, W.mk 6 45, W.mk 22 44, W.mk (-22) 13,
  W.mk (-17) (-8), W.mk (-20) 22, W.mk (-12) 24, W.mk (-27) 27, W.mk (-30) 26, W.mk (-25) 33, W.mk (-14) 26, W.mk (-36) 3,
  W.mk (-49) (-18), W.mk (-1) (-4), W.mk (-27) 21, W.mk (-39) 24, W.mk (-46) 27, W.mk (-44) 23, W.mk (-33) 9, W.mk (-51) (-11),
  W.mk (-14) (-19), W.mk (-14) (-3), W.mk (-22) 11, W.mk (-46) 21, W.mk (-44) 23, W.mk (-30) 16, W.mk (-15) 7, W.mk (-27) (-9),
  W.mk 1 (-27), W.mk 7 (-11), W.mk (-8) 4, W.mk (-64) 13, W.mk (-43) 14, W.mk (-16) 4, W.mk 9 (-5), W.mk 8 (-17),
  W.mk (-15) (-53), W.mk 36 (-34), W.mk 12 (-21), W.mk (-54) (-11), W.mk 8 (-28), W.mk (-28) (-14), W.mk 24 (-24), W.mk 14 (-43)]

/-- Piece-indexed PST lookup, Board::PST of evaluation.rs.  The source table
has six rows (no None row: indexing it with Piece::None is an out-of-bounds
panic); lookup beyond the list yields the zero weight here. -/
def PST (p : Piece) (square : Nat) : W :=
  (match p with
    | .Pawn => PST_PAWN
    | .Knight => PST_KNIGHT
    | .Bishop => PST_BISHOP
    | .Rook => PST_ROOK
    | .Queen => PST_QUEEN
    | .King => PST_KING
    | .None => []).getD square ⟨0, 0⟩

/-- Modelled from the spec: the Zobrist key tables are produced by fixed-seed
deterministic PRNG sequences (seeds 1 to 4); the concrete generator is the
external rand crate, outside the sources.  This splitmix-style mixer stands
in for it; every property proved about the Zobrist hash below holds for any
fixed table values. -/
def zmix (n : Nat) : Nat :=
  let z := (n + 0x9E3779B97F4A7C15) % M64
  let z := ((z ^^^ (z >>> 30)) * 0xBF58476D1CE4E5B9) % M64
  let z := ((z ^^^ (z >>> 27)) * 0x94D049BB133111EB) % M64
  z ^^^ (z >>> 31)

/-- Modelled from the spec: ZOBRIST_PIECE table (seed 1 sequence). -/
def ZOBRIST_PIECE (c : Color) (p : Piece) (s : Nat) : Nat :=
  zmix ((1 <<< 42) + (c.toIdx * 7 + p.toIdx) * 4096 + s)

/-- Modelled from the spec: ZOBRIST_SIDE key (seed 2 sequence). -/
def ZOBRIST_SIDE : Nat := zmix (2 <<< 42)

/-- Modelled from the spec: ZOBRIST_CASTLING table (seed 3 sequence). -/
def ZOBRIST_CASTLING (rights : Nat) : Nat := zmix ((3 <<< 42) + rights)

/-- Modelled from the spec: ZOBRIST_EN_PASSANT table (seed 4 sequence). -/
def ZOBRIST_EN_PASSANT (file : Nat) : Nat := zmix ((4 <<< 42) + file)

/-- BOARD_WIDTH constant. -/
def BOARD_WIDTH : Nat := 8

/-- Square helper to_square of board.rs. -/
def to_square (rank file : Nat) : Nat := rank * BOARD_WIDTH + file

/-- Single-square mask, the bit helper of board.rs. -/
def bit (square : Nat) : Nat := 1 <<< square

/-- Board struct of board.rs.  Arrays indexed by color or piece become
functions; the mailbox is a total function on square numbers (only indices
below 64 are ever used by the source, which panics beyond). -/
structure Board where
  pieces : Nat → Piece × Color
  bitboards : Color → Piece → Nat
  occupancies : Color → Nat
  zobrist : Nat
  en_passant_square : Option Nat
  halfmove_clock : Nat
  castling_rights : Nat
  side_to_move : Color
  bonus : Color → W
  material : Color → Int
  phase : Nat

/-- Board::toggle_piece of board.rs: flips the presence of (piece, color) on
a square, updating mailbox, bitboards, occupancies, Zobrist and the
evaluation accumulators.  Note the phase field is usize in the source; the
truncated Nat subtraction here coincides with it except where the source
would underflow (a debug panic there). -/
def Board.toggle_piece (b : Board) (square : Nat) (piece_type : Piece) (color : Color) : Board :=
  let square_bit := bit square
  let current_piece := (b.pieces square).1
  let square_lookup := match color with
    | Color.White => square ^^^ 56
    | Color.Black => square
  let b1 :=
    if current_piece = Piece.None then
      { b with
        phase := b.phase + PHASE_VALUE piece_type
        bonus := fun c => if c = color then (b.bonus c).add (PST piece_type square_lookup) else b.bonus c
        material := fun c => if c = color then b.material c + PIECE_VALUES piece_type else b.material c
        pieces := fun t => if t = square then (piece_type, color) else b.pieces t }
    else
      { b with
        phase := b.phase - PHASE_VALUE piece_type
        bonus := fun c => if c = color then (b.bonus c).sub (PST piece_type square_lookup) else b.bonus c
        material := fun c => if c = color then b.material c - PIECE_VALUES piece_type else b.material c
        pieces := fun t => if t = square then (Piece.None, Color.White) else b.pieces t }
  { b1 with
    bitboards := fun c p =>
      if c = color ∧ p = piece_type then b1.bitboards c p ^^^ square_bit else b1.bitboards c p
    occupancies := fun c => if c = color then b1.occupancies c ^^^ square_bit else b1.occupancies c
    zobrist := b1.zobrist ^^^ ZOBRIST_PIECE color piece_type square }

/-- Board::set_zobrist_fen of board.rs: folds side to move, en passant file
and castling rights into the hash after the placement toggles. -/
def Board.set_zobrist_fen (b : Board) : Board :=
  let z1 := if b.side_to_move = Color.Black then b.zobrist ^^^ ZOBRIST_SIDE else b.zobrist
  let z2 := match b.en_passant_square with
    | some sq => z1 ^^^ ZOBRIST_EN_PASSANT (sq % BOARD_WIDTH)
    | none => z1
  { b with zobrist := z2 ^^^ ZOBRIST_CASTLING b.castling_rights }

/-- square_from_uci of board.rs. -/
def square_from_uci (uci : String) : Except String Nat :=
  match uci.toList with
  | f :: r :: _ =>
    if 'a' ≤ f ∧ f ≤ 'h' ∧ '1' ≤ r ∧ r ≤ '8' then
      .ok (to_square (r.toNat - '1'.toNat) (f.toNat - 'a'.toNat))
    else .error "invalid character for square"
  | _ => .error "invalid character for square"

/-- Character loop of Board::parse_positioning of board.rs, with the running
rank and file as explicit state and the final completeness check. -/
def parse_positioning_go (b : Board) (rank file : Nat) : List Char → Except String Board
  | [] => if rank ≠ 0 ∨ file ≠ BOARD_WIDTH then .error "incomplete board" else .ok b
  | c :: rest =>
    if c = '/' then
      if rank = 0 then .error "too many ranks"
      else parse_positioning_go b (rank - 1) 0 rest
    else if c.isDigit then
      parse_positioning_go b rank (file + (c.toNat - '0'.toNat)) rest
    else
      match Piece.from_char c with
      | .error e => .error e
      | .ok piece_type =>
        let color := if c.isUpper then Color.White else Color.Black
        if file ≥ BOARD_WIDTH then .error "file out of bounds"
        else parse_positioning_go (b.toggle_piece (to_square rank file) piece_type color)
          rank (file + 1) rest

/-- Board::parse_positioning of board.rs applied to the placement token. -/
def Board.parse_positioning (b : Board) (part : String) : Except String Board :=
  parse_positioning_go b (BOARD_WIDTH - 1) 0 part.toList

/-- The freshly zeroed board built at the top of Board::new. -/
def emptyBoard : Board where
  pieces := fun _ => (Piece.None, Color.White)
  bitboards := fun _ _ => 0
  occupancies := fun _ => 0
  zobrist := 0
  en_passant_square := none
  halfmove_clock := 0
  castling_rights := 0
  side_to_move := Color.White
  bonus := fun _ => ⟨0, 0⟩
  material := fun _ => 0
  phase := 0

/-- Castling-rights bit for one character of the castling field. -/
def castleBit (c : Char) : Nat :=
  match c with
  | 'K' => 1
  | 'Q' => 2
  | 'k' => 4
  | 'q' => 8
  | _ => 0

/-- Model of u8::from_str as used for the halfmove clock: an optional leading
plus sign, then one or more ascii digits, value at most 255. -/
def parse_u8 (s : String) : Option Nat :=
  let cs := match s.toList with
    | '+' :: rest => rest
    | cs => cs
  if cs ≠ [] ∧ cs.all (fun c => c.isDigit) then
    let v := cs.foldl (fun a c => a * 10 + (c.toNat - '0'.toNat)) 0
    if v ≤ 255 then some v else none
  else none

/-- Body of Board::new of board.rs over the already-split whitespace tokens:
placement (required), side to move, castling, en passant and halfmove fields
consumed in order, each optional field silently defaulted when absent.  The
en passant parse failure is discarded by ok() and the halfmove parse failure
by the if-let, exactly as in the source. -/
def Board.newFromTokens (tokens : List String) : Except String Board :=
  match tokens with
  | [] => .error "no piece placement part found"
  | placement :: rest =>
    match emptyBoard.parse_positioning placement with
    | .error e => .error e
    | .ok b0 =>
      let b1 := { b0 with
        side_to_move := match rest.head? >>= (fun s => s.toList.head?) with
          | some 'w' => Color.White
          | some 'b' => Color.Black
          | _ => Color.White }
      let b2 := match rest.get? 1 with
        | some cpart =>
          { b1 with castling_rights :=
              cpart.toList.foldl (fun r chr => r ||| castleBit chr) b1.castling_rights }
        | none => b1
      let b3 := match rest.get? 2 with
        | some eppart => { b2 with en_passant_square := (square_from_uci eppart).toOption }
        | none => b2
      let b4 := match rest.get? 3 with
        | some hmpart =>
          match parse_u8 hmpart with
          | some v => { b3 with halfmove_clock := v }
          | none => b3
        | none => b3
      .ok b4.set_zobrist_fen

/-- Worker for splitWs, accumulating the current token reversed. -/
def splitWsGo (cur : List Char) : List Char → List String
  | [] => if cur.isEmpty then [] else [String.mk cur.reverse]
  | c :: rest =>
    if c.isWhitespace then
      if cur.isEmpty then splitWsGo [] rest
      else String.mk cur.reverse :: splitWsGo [] rest
    else splitWsGo (c :: cur) rest

/-- Whitespace tokenization as Rust split_whitespace: runs of whitespace
separate the tokens and produce no empties (the FEN inputs are ASCII). -/
def splitWs (s : String) : List String := splitWsGo [] s.toList

/-- Board::new of board.rs. -/
def Board.new (fen : String) : Except String Board :=
  Board.newFromTokens (splitWs fen)

/-- Board::calculate_zobrist of board.rs: full recomputation of the hash
from bitboards, side to move, castling rights and the en passant file. -/
def Board.calculate_zobrist (b : Board) : Nat :=
  let piece_zobrist :=
    [Color.White, Color.Black].foldl (fun acc c =>
      PIECE_TYPES.foldl (fun acc p =>
        (ones (b.bitboards c p)).foldl (fun acc s => acc ^^^ ZOBRIST_PIECE c p s) acc) acc) 0
  let side_to_move_zobrist := if b.side_to_move = Color.Black then ZOBRIST_SIDE else 0
  let en_passant_zobrist := match b.en_passant_square with
    | some sq => ZOBRIST_EN_PASSANT (sq % BOARD_WIDTH)
    | none => 0
  piece_zobrist ^^^ side_to_move_zobrist ^^^ ZOBRIST_CASTLING b.castling_rights
    ^^^ en_passant_zobrist

/-- Board::is_insufficient_material of board.rs, including the either_bare
condition exactly as written there (both disjuncts test the White
occupancy). -/
def Board.is_insufficient_material (b : Board) : Bool :=
  let acc := [Color.White, Color.Black].foldl
    (fun (acc : Nat × Nat × Nat) color =>
      (acc.1 ||| (b.bitboards color .Pawn ||| b.bitboards color .Rook ||| b.bitboards color .Queen),
       acc.2.1 ||| b.bitboards color .Bishop,
       acc.2.2 ||| b.bitboards color .Knight)) (0, 0, 0)
  let pawn_rook_queen := acc.1
  let bishop := acc.2.1
  let knight := acc.2.2
  if pawn_rook_queen ≠ 0 then false
  else
    let minors := bishop ||| knight
    let either_bare :=
      count_ones (b.occupancies Color.White) = 1 ∨ count_ones (b.occupancies Color.White) = 1
    let have_one_minor := minors = 0 ∨ minors &&& (minors - 1) = 0
    decide (either_bare ∧ (have_one_minor ∨ (bishop = 0 ∧ count_ones knight ≤ 2)))

/-- Board::is_fifty_move of board.rs. -/
def Board.is_fifty_move (b : Board) : Bool :=
  decide (b.halfmove_clock ≥ 100)

/-- STARTPOS_FEN constant of board.rs. -/
def STARTPOS_FEN : String := "rnbqkbnr/pppppppp/8/8/8/8/PPPPPPPP/RNBQKBNR w KQkq - 0 1"

/-- RANKS constant of board.rs: one mask per rank. -/
def RANKS : List Nat :=
  [0xFF, 0xFF00, 0xFF0000, 0xFF000000, 0xFF00000000, 0xFF0000000000,
   0xFF000000000000, 0xFF00000000000000]

/-- MoveType enum of moves.rs. -/
inductive MoveType
  | Quiet
  | DoublePawnPush
  | KingSideCastle
  | QueenSideCastle
  | Capture
  | EnPassantCapture
  | Invalid
deriving DecidableEq, Repr

/-- Numeric discriminant of a MoveType. -/
def MoveType.toIdx : MoveType → Nat
  | .Quiet => 0
  | .DoublePawnPush => 1
  | .KingSideCastle => 2
  | .QueenSideCastle => 3
  | .Capture => 4
  | .EnPassantCapture => 5
  | .Invalid => 6

/-- MoveFlag struct of moves.rs. -/
structure MoveFlag where
  move_type : MoveType
  promotion : Piece
deriving DecidableEq, Repr

/-- Packed 16-bit move of moves.rs. -/
structure Move where
  val : Nat
deriving DecidableEq, Repr

/-- Move::new of moves.rs: 6-bit origin, 6-bit destination, 4-bit flags. -/
def Move.new (fromSq toSq : Nat) (move_flags : MoveFlag) : Move :=
  let to_encoded := toSq <<< 6
  let promotion_bits :=
    if move_flags.promotion ≠ Piece.None then 8 ||| (move_flags.promotion.toIdx - 1) else 0
  let move_flags_encoded := (move_flags.move_type.toIdx ||| promotion_bits) <<< 12
  ⟨fromSq ||| to_encoded ||| move_flags_encoded⟩

/-- Move::get_from of moves.rs. -/
def Move.get_from (m : Move) : Nat := m.val &&& 0x3f

/-- Move::get_to of moves.rs. -/
def Move.get_to (m : Move) : Nat := (m.val >>> 6) &&& 0x3f

/-- FLAGS_LUT of tables.rs: decode of the 4-bit flag patterns.  The source
array has exactly 16 entries; the final arm is unreachable because the index
is masked to 4 bits. -/
def FLAGS_LUT : Nat → MoveFlag
  | 0 => ⟨.Quiet, .None⟩
  | 1 => ⟨.DoublePawnPush, .None⟩
  | 2 => ⟨.KingSideCastle, .None⟩
  | 3 => ⟨.QueenSideCastle, .None⟩
  | 4 => ⟨.Capture, .None⟩
  | 5 => ⟨.EnPassantCapture, .None⟩
  | 6 => ⟨.Invalid, .None⟩
  | 7 => ⟨.Invalid, .None⟩
  | 8 => ⟨.Quiet, .Knight⟩
  | 9 => ⟨.Quiet, .Bishop⟩
  | 10 => ⟨.Quiet, .Rook⟩
  | 11 => ⟨.Quiet, .Queen⟩
  | 12 => ⟨.Capture, .Knight⟩
  | 13 => ⟨.Capture, .Bishop⟩
  | 14 => ⟨.Capture, .Rook⟩
  | 15 => ⟨.Capture, .Queen⟩
  | _ => ⟨.Invalid, .None⟩

/-- Move::get_flags of moves.rs. -/
def Move.get_flags (m : Move) : MoveFlag := FLAGS_LUT ((m.val >>> 12) &&& 0xf)

/-- Offset struct of tables.rs, with the i8 coordinates as Int. -/
structure Offset where
  rank : Int
  file : Int

/-- PAWN_CAPTURE_OFFSETS_WHITE of tables.rs. -/
def PAWN_CAPTURE_OFFSETS_WHITE : List Offset := [⟨1, -1⟩, ⟨1, 1⟩]

/-- PAWN_CAPTURE_OFFSETS_BLACK of tables.rs. -/
def PAWN_CAPTURE_OFFSETS_BLACK : List Offset := [⟨-1, -1⟩, ⟨-1, 1⟩]

/-- KNIGHT_OFFSETS of tables.rs. -/
def KNIGHT_OFFSETS : List Offset :=
  [⟨2, 1⟩, ⟨1, 2⟩, ⟨-1, 2⟩, ⟨-2, 1⟩, ⟨-2, -1⟩, ⟨-1, -2⟩, ⟨1, -2⟩, ⟨2, -1⟩]

/-- KING_OFFSETS of tables.rs. -/
def KING_OFFSETS : List Offset :=
  [⟨1, 0⟩, ⟨1, 1⟩, ⟨0, 1⟩, ⟨-1, 1⟩, ⟨-1, 0⟩, ⟨-1, -1⟩, ⟨0, -1⟩, ⟨1, -1⟩]

/-- ROOK_DIRECTIONS of tables.rs. -/
def ROOK_DIRECTIONS : List Offset := [⟨1, 0⟩, ⟨-1, 0⟩, ⟨0, 1⟩, ⟨0, -1⟩]

/-- BISHOP_DIRECTIONS of tables.rs. -/
def BISHOP_DIRECTIONS : List Offset := [⟨1, 1⟩, ⟨1, -1⟩, ⟨-1, 1⟩, ⟨-1, -1⟩]

/-- valid_axis of board.rs. -/
def valid_axis (axis : Int) : Bool := decide (0 ≤ axis ∧ axis < 8)

/-- Square from in-range signed coordinates, as to_square on i8. -/
def to_squareI (rank file : Int) : Nat := (rank * 8 + file).toNat

/-- gen_jumping_attacks of movegen.rs. -/
def gen_jumping_attacks (square : Nat) (offsets : List Offset) : Nat :=
  let rank : Int := square / BOARD_WIDTH
  let file : Int := square % BOARD_WIDTH
  offsets.foldl (fun attacks o =>
    let r := rank + o.rank
    let f := file + o.file
    if valid_axis r ∧ valid_axis f then attacks ||| bit (to_squareI r f) else attacks) 0

/-- gen_edge_mask of movegen.rs. -/
def gen_edge_mask (square : Nat) : Nat :=
  let fileBB1 : Nat := 0x0101010101010101
  let fileBB8 : Nat := 0x8080808080808080
  [RANKS.getD 0 0, RANKS.getD 7 0, fileBB1, fileBB8].foldl
    (fun mask edge => if bit square &&& edge = 0 then mask ||| edge else mask) 0

/-- Ray walk of gen_sliding_attacks: step in one direction, accumulate until
a blocker or the edge.  The fuel of 8 (the board width) bounds the walk; the
source loop takes at most seven in-board steps because each one advances a
coordinate by one in a fixed direction. -/
def slideGo (occupancy : Nat) (orank ofile : Int) : Int → Int → Nat → Nat → Nat
  | _, _, ray, 0 => ray
  | r, f, ray, fuel + 1 =>
    if valid_axis r ∧ valid_axis f then
      let ray := ray ||| bit (to_squareI r f)
      if ray &&& occupancy ≠ 0 then ray
      else slideGo occupancy orank ofile (r + orank) (f + ofile) ray fuel
    else ray

/-- gen_sliding_attacks of movegen.rs. -/
def gen_sliding_attacks (square occupancy : Nat) (directions : List Offset) : Nat :=
  let rank : Int := square / BOARD_WIDTH
  let file : Int := square % BOARD_WIDTH
  directions.foldl (fun attacks o =>
    attacks ||| slideGo occupancy o.rank o.file (rank + o.rank) (file + o.file) 0 8) 0

/-- KNIGHT_ATTACKS table of tables.rs. -/
def KNIGHT_ATTACKS (square : Nat) : Nat := gen_jumping_attacks square KNIGHT_OFFSETS

/-- KING_ATTACKS table of tables.rs. -/
def KING_ATTACKS (square : Nat) : Nat := gen_jumping_attacks square KING_OFFSETS

/-- WPAWN_ATTACKS table of tables.rs. -/
def WPAWN_ATTACKS (square : Nat) : Nat := gen_jumping_attacks square PAWN_CAPTURE_OFFSETS_WHITE

/-- BPAWN_ATTACKS table of tables.rs. -/
def BPAWN_ATTACKS (square : Nat) : Nat := gen_jumping_attacks square PAWN_CAPTURE_OFFSETS_BLACK

/-- BISHOP_RM relevant-mask table of tables.rs. -/
def BISHOP_RM (square : Nat) : Nat :=
  gen_sliding_attacks square 0 BISHOP_DIRECTIONS &&& u64not (gen_edge_mask square)

/-- ROOK_RM relevant-mask table of tables.rs. -/
def ROOK_RM (square : Nat) : Nat :=
  gen_sliding_attacks square 0 ROOK_DIRECTIONS &&& u64not (gen_edge_mask square)

/-- Modelled from the spec: the magics module (the frozen build artifact with
BISHOP_MAGICS, ROOK_MAGICS and the SLIDING_ATTACKS array) is not among the
sources.  Per the magic lookup contract and find_magics.rs, the table entry
selected by get_bishop_index(square, occ) holds the bishop attack set for the
relevant occupancy occ masked to BISHOP_RM, which is what this computes. -/
def SLIDING_ATTACKS_BISHOP (square occupancy : Nat) : Nat :=
  gen_sliding_attacks square (occupancy &&& BISHOP_RM square) BISHOP_DIRECTIONS

/-- Modelled from the spec: rook half of the magic table lookup, as the
bishop case. -/
def SLIDING_ATTACKS_ROOK (square occupancy : Nat) : Nat :=
  gen_sliding_attacks square (occupancy &&& ROOK_RM square) ROOK_DIRECTIONS

/-- gen_pawn_pushes of movegen.rs. -/
def gen_pawn_pushes (square occupancy : Nat) (color : Color) : Nat :=
  match color with
  | .White =>
    let single := shl64 (bit square) BOARD_WIDTH &&& u64not occupancy
    let double := shl64 (single &&& RANKS.getD 2 0) BOARD_WIDTH &&& u64not occupancy
    single ||| double
  | .Black =>
    let single := (bit square >>> BOARD_WIDTH) &&& u64not occupancy
    let double := ((single &&& RANKS.getD 5 0) >>> BOARD_WIDTH) &&& u64not occupancy
    single ||| double

/-- gen_pawn_captures of movegen.rs. -/
def gen_pawn_captures (square capturable : Nat) (color : Color) : Nat :=
  (match color with
    | .White => WPAWN_ATTACKS square
    | .Black => BPAWN_ATTACKS square) &&& capturable

/-- gen_piece_moves of movegen.rs.  The None arm is unreachable in the
source. -/
def gen_piece_moves (square : Nat) (piece : Piece) (color : Color) (b : Board) : Nat :=
  let friendly := b.occupancies color
  let enemy := b.occupancies color.toggle
  let occupancy_all := friendly ||| enemy
  (match piece with
    | .Pawn =>
      let en_passant_bit := (b.en_passant_square.map bit).getD 0
      gen_pawn_pushes square occupancy_all color |||
        gen_pawn_captures square (en_passant_bit ||| enemy) color
    | .Knight => KNIGHT_ATTACKS square
    | .Bishop => SLIDING_ATTACKS_BISHOP square occupancy_all
    | .Rook => SLIDING_ATTACKS_ROOK square occupancy_all
    | .Queen => SLIDING_ATTACKS_BISHOP square occupancy_all ||| SLIDING_ATTACKS_ROOK square occupancy_all
    | .King => KING_ATTACKS square
    | .None => 0) &&& u64not friendly

/-- get_move_type of movegen.rs, with its priority order. -/
def get_move_type (piece : Piece) (toSq fromSq : Nat) (b : Board) : MoveType :=
  if piece = Piece.Pawn ∧ some toSq = b.en_passant_square then .EnPassantCapture
  else if (b.pieces toSq).1 ≠ Piece.None then .Capture
  else if piece = Piece.Pawn ∧ Nat.dist toSq fromSq = BOARD_WIDTH * 2 then .DoublePawnPush
  else .Quiet

/-- push_with_promotions of movegen.rs, returning the pushed moves. -/
def push_with_promotions (fromSq toSq : Nat) (move_type : MoveType) (piece : Piece)
    (color : Color) : List Move :=
  let promotion_rank := match color with
    | Color.White => RANKS.getD 7 0
    | Color.Black => RANKS.getD 0 0
  let is_promotion := piece = Piece.Pawn ∧ bit toSq &&& promotion_rank ≠ 0
  if is_promotion then
    [Piece.Knight, Piece.Bishop, Piece.Rook, Piece.Queen].map
      (fun promotion_piece => Move.new fromSq toSq ⟨move_type, promotion_piece⟩)
  else [Move.new fromSq toSq ⟨move_type, Piece.None⟩]

/-- get_castling_moves of movegen.rs: a castle candidate is appended when the
right is held and only the king destination square is empty. -/
def get_castling_moves (b : Board) : List Move :=
  let occupancy := b.occupancies Color.White ||| b.occupancies Color.Black
  let rights := b.castling_rights
  match b.side_to_move with
  | Color.White =>
    (if rights &&& Castling.WK ≠ 0 ∧ occupancy &&& bit 6 = 0 then
      [Move.new 4 6 ⟨.KingSideCastle, .None⟩] else []) ++
    (if rights &&& Castling.WQ ≠ 0 ∧ occupancy &&& bit 2 = 0 then
      [Move.new 4 2 ⟨.QueenSideCastle, .None⟩] else [])
  | Color.Black =>
    (if rights &&& Castling.BK ≠ 0 ∧ occupancy &&& bit 62 = 0 then
      [Move.new 60 62 ⟨.KingSideCastle, .None⟩] else []) ++
    (if rights &&& Castling.BQ ≠ 0 ∧ occupancy &&& bit 58 = 0 then
      [Move.new 60 58 ⟨.QueenSideCastle, .None⟩] else [])

/-- gen_color_moves of movegen.rs: for each piece kind and each origin bit,
every destination bit becomes a move (promotions expanding to four), and the
castle candidates are appended last. -/
def gen_color_moves (b : Board) : List Move :=
  let color := b.side_to_move
  (PIECE_TYPES.flatMap fun piece_type =>
    (ones (b.bitboards color piece_type)).flatMap fun fromSq =>
      (ones (gen_piece_moves fromSq piece_type color b)).flatMap fun toSq =>
        push_with_promotions fromSq toSq (get_move_type piece_type toSq fromSq b)
          piece_type color) ++ get_castling_moves b

/-- is_square_attacked of movegen.rs. -/
def is_square_attacked (square : Nat) (attacker_color : Color) (b : Board) : Bool :=
  let occupancy := b.occupancies Color.White ||| b.occupancies Color.Black
  let ab := b.bitboards attacker_color
  decide (gen_pawn_captures square (ab Piece.Pawn) attacker_color.toggle ≠ 0) ||
  decide (KNIGHT_ATTACKS square &&& ab Piece.Knight ≠ 0) ||
  decide (SLIDING_ATTACKS_BISHOP square occupancy &&& (ab Piece.Bishop ||| ab Piece.Queen) ≠ 0) ||
  decide (SLIDING_ATTACKS_ROOK square occupancy &&& (ab Piece.Rook ||| ab Piece.Queen) ≠ 0) ||
  decide (KING_ATTACKS square &&& ab Piece.King ≠ 0)

/-- is_legal_move of movegen.rs, translated exactly as written: it is called
on the board on which the move has already been made, and it binds color to
the side to move of that board. -/
def is_legal_move (mov : Move) (b : Board) : Bool :=
  let move_type := mov.get_flags.move_type
  let color := b.side_to_move
  let king_bitboard := b.bitboards color Piece.King
  if move_type = MoveType.KingSideCastle ∨ move_type = MoveType.QueenSideCastle then
    let ibtr : List Nat × List Nat × Nat :=
      match color, move_type with
      | Color.White, MoveType.KingSideCastle => ([5, 6], [4, 5, 6], bit 5)
      | Color.White, MoveType.QueenSideCastle => ([1, 2, 3], [4, 3, 2], bit 3)
      | Color.Black, MoveType.KingSideCastle => ([61, 62], [60, 61, 62], bit 61)
      | Color.Black, MoveType.QueenSideCastle => ([57, 58, 59], [60, 59, 58], bit 59)
      | _, _ => ([], [], 0)
    let in_between := ibtr.1
    let through := ibtr.2.1
    let rook_bit := ibtr.2.2
    let occupancy := b.occupancies Color.White ||| b.occupancies Color.Black
    let occupancy_without_updated_pieces := occupancy &&& u64not (king_bitboard ||| rook_bit)
    through.all (fun sq => !is_square_attacked sq color.toggle b) &&
      in_between.all (fun sq => decide (occupancy_without_updated_pieces &&& bit sq = 0))
  else
    !is_square_attacked (tz king_bitboard) color.toggle b

/-- Undo struct of make_move.rs. -/
structure Undo where
  mov : Move
  captured : Piece
  en_passant_square : Option Nat
  halfmove_clock : Nat
  castling_rights : Nat
  zobrist : Nat
deriving Repr

/-- Bitwise complement of a u8 mask, as the Rust not on u8. -/
def u8not (a : Nat) : Nat := 255 ^^^ a

/-- Board::update_rights_on_rook_change of make_move.rs. -/
def Board.update_rights_on_rook_change (b : Board) (square : Nat) (color : Color) : Board :=
  let mask := match square, color with
    | 0, Color.White => Castling.WQ
    | 7, Color.White => Castling.WK
    | 56, Color.Black => Castling.BQ
    | 63, Color.Black => Castling.BK
    | _, _ => 0
  { b with castling_rights := b.castling_rights &&& u8not mask }

/-- Board::get_en_passant_target of make_move.rs.  Nat subtraction truncates
where the u8 subtraction of the source would underflow (a panic there); the
hypotheses of every use keep the value in range. -/
def get_en_passant_target (toSq : Nat) (color : Color) : Nat :=
  match color with
  | Color.White => toSq - BOARD_WIDTH
  | Color.Black => toSq + BOARD_WIDTH

/-- Board::update_zobrist of make_move.rs: the non-piece hash deltas of a
move (side, en passant file in and out, castling rights in and out). -/
def Board.update_zobrist (b : Board) (old_en_passant : Option Nat) (old_rights : Nat) : Board :=
  let z := b.zobrist ^^^ ZOBRIST_SIDE
  let z :=
    if old_en_passant ≠ b.en_passant_square then
      let z := z ^^^ (match old_en_passant with
        | some e => ZOBRIST_EN_PASSANT (e % BOARD_WIDTH)
        | none => 0)
      z ^^^ (match b.en_passant_square with
        | some e => ZOBRIST_EN_PASSANT (e % BOARD_WIDTH)
        | none => 0)
    else z
  let z :=
    if old_rights ≠ b.castling_rights then
      z ^^^ ZOBRIST_CASTLING old_rights ^^^ ZOBRIST_CASTLING b.castling_rights
    else z
  { b with zobrist := z }

/-- Board::make_move of make_move.rs, returning the new board and the Undo
record.  The halfmove increment wraps as the u8 of the source does in
release mode. -/
def Board.make_move (b : Board) (mov : Move) : Board × Undo :=
  let fromSq := mov.get_from
  let toSq := mov.get_to
  let flags := mov.get_flags
  let move_type := flags.move_type
  let captured_piece := (b.pieces toSq).1
  let captured_color := (b.pieces toSq).2
  let piece_type := (b.pieces fromSq).1
  let final_type := if flags.promotion ≠ Piece.None then flags.promotion else piece_type
  let color := b.side_to_move
  let enemy := color.toggle
  let old_zobrist := b.zobrist
  let b := b.toggle_piece fromSq piece_type color
  let b := match move_type with
    | .Capture => b.toggle_piece toSq captured_piece captured_color
    | .EnPassantCapture =>
      b.toggle_piece (get_en_passant_target toSq color) Piece.Pawn enemy
    | .KingSideCastle =>
      let rf : Nat × Nat := match color with
        | Color.White => (7, 5)
        | Color.Black => (63, 61)
      (b.toggle_piece rf.1 Piece.Rook color).toggle_piece rf.2 Piece.Rook color
    | .QueenSideCastle =>
      let rf : Nat × Nat := match color with
        | Color.White => (0, 3)
        | Color.Black => (56, 59)
      (b.toggle_piece rf.1 Piece.Rook color).toggle_piece rf.2 Piece.Rook color
    | _ => b
  let b := b.toggle_piece toSq final_type color
  let old_en_passant := b.en_passant_square
  let b := { b with en_passant_square :=
    if move_type = MoveType.DoublePawnPush then some (get_en_passant_target toSq color)
    else none }
  let old_clock := b.halfmove_clock
  let b := { b with halfmove_clock :=
    if piece_type = Piece.Pawn ∨ move_type = MoveType.Capture then 0
    else (b.halfmove_clock + 1) % 256 }
  let old_rights := b.castling_rights
  let b :=
    if piece_type = Piece.King then
      let kmask := match color with
        | Color.White => Castling.WK ||| Castling.WQ
        | Color.Black => Castling.BK ||| Castling.BQ
      { b with castling_rights := b.castling_rights &&& u8not kmask }
    else if piece_type = Piece.Rook then b.update_rights_on_rook_change fromSq color
    else b
  let b := if captured_piece = Piece.Rook then b.update_rights_on_rook_change toSq enemy else b
  let b := { b with side_to_move := enemy }
  let b := b.update_zobrist old_en_passant old_rights
  (b, ⟨mov, captured_piece, old_en_passant, old_clock, old_rights, old_zobrist⟩)

/-- Board::undo_move of make_move.rs. -/
def Board.undo_move (b : Board) (undo : Undo) : Board :=
  let b := { b with
    en_passant_square := undo.en_passant_square
    halfmove_clock := undo.halfmove_clock
    castling_rights := undo.castling_rights
    side_to_move := b.side_to_move.toggle }
  let mov := undo.mov
  let fromSq := mov.get_from
  let toSq := mov.get_to
  let flags := mov.get_flags
  let move_type := flags.move_type
  let piece_type := (b.pieces toSq).1
  let final_type := if flags.promotion ≠ Piece.None then flags.promotion else piece_type
  let initial_type := if flags.promotion ≠ Piece.None then Piece.Pawn else piece_type
  let color := b.side_to_move
  let b := b.toggle_piece toSq final_type color
  let b := match move_type with
    | .Capture => b.toggle_piece toSq undo.captured color.toggle
    | .EnPassantCapture =>
      b.toggle_piece (get_en_passant_target toSq color) Piece.Pawn color.toggle
    | .KingSideCastle =>
      let rf : Nat × Nat := match color with
        | Color.White => (7, 5)
        | Color.Black => (63, 61)
      (b.toggle_piece rf.1 Piece.Rook color).toggle_piece rf.2 Piece.Rook color
    | .QueenSideCastle =>
      let rf : Nat × Nat := match color with
        | Color.White => (0, 3)
        | Color.Black => (56, 59)
      (b.toggle_piece rf.1 Piece.Rook color).toggle_piece rf.2 Piece.Rook color
    | _ => b
  let b := b.toggle_piece fromSq initial_type color
  { b with zobrist := undo.zobrist }

/-- The perft function of engine/uci.rs: the move list is generated once per
node, then each move is made, counted when is_legal_move accepts it, and
undone, the board threading through the loop. -/
def perft : Board → Nat → Nat
  | _, 0 => 1
  | b, depth + 1 =>
    ((gen_color_moves b).foldl (fun acc mov =>
      let made := acc.1.make_move mov
      let nodes := if is_legal_move mov made.1 then acc.2 + perft made.1 depth else acc.2
      (made.1.undo_move made.2, nodes)) (b, 0)).2

/-- Two-complement wrap of an Int into the i16 range, the as-i16 cast of
Rust. -/
def toI16 (x : Int) : Int := (x + 32768) % 65536 - 32768

/-- Low 16 bits of an Int, the as-u16 cast of Rust. -/
def toU16 (x : Int) : Nat := (x % 65536).toNat

/-- Tapering ratio computed inside Board::evaluate of evaluation.rs:
(phase times PHASE_SCALE plus half of TOTAL_PHASE) divided by TOTAL_PHASE,
in usize arithmetic.  There is no clamping in the source. -/
def phaseRatioValue (phase : Nat) : Nat :=
  (phase * PHASE_SCALE + TOTAL_PHASE / 2) / TOTAL_PHASE

/-- Board::evaluate of evaluation.rs (the debug-only bonus recomputation
assert is elided; signed casts wrap as in release mode; Int.tdiv is the
truncating division of Rust). -/
def Board.evaluate (b : Board) : Int :=
  let material_score := b.material Color.White - b.material Color.Black
  let phase_ratio : Int := phaseRatioValue b.phase
  let midgame_bonus : Int := (b.bonus Color.White).mg - (b.bonus Color.Black).mg
  let endgame_bonus : Int := (b.bonus Color.White).eg - (b.bonus Color.Black).eg
  let positional :=
    Int.tdiv (midgame_bonus * phase_ratio + endgame_bonus * ((PHASE_SCALE : Int) - phase_ratio))
      (PHASE_SCALE : Int)
  toI16 positional + material_score

/-- HISTORY_MAX of ordering.rs. -/
def HISTORY_MAX : Int := 20000

/-- History heuristic table of ordering.rs: a per (color, from, to) i16
counter (the atomics become plain state in this single-thread model). -/
structure HistoryHeuristics where
  table : Color → Nat → Nat → Int

/-- HistoryHeuristics::get of ordering.rs. -/
def HistoryHeuristics.get (h : HistoryHeuristics) (fromSq toSq : Nat) (color : Color) : Int :=
  h.table color fromSq toSq

/-- HistoryHeuristics::update of ordering.rs, translated exactly as written:
the new counter value is clamped_bonus minus old times the absolute
clamped_bonus divided by HISTORY_MAX (i32 truncating division), cast back
to i16.  Note the source does not add the old value. -/
def HistoryHeuristics.update (h : HistoryHeuristics) (color : Color) (fromSq toSq : Nat)
    (bonus : Int) : HistoryHeuristics :=
  let clamped_bonus := max (-HISTORY_MAX) (min bonus HISTORY_MAX)
  let cabs : Int := clamped_bonus.natAbs
  { table := fun c f t =>
      if c = color ∧ f = fromSq ∧ t = toSq then
        toI16 (clamped_bonus - Int.tdiv (h.table c f t * cabs) HISTORY_MAX)
      else h.table c f t }

/-- The killers and history-heuristic state that Searcher::update_heuristics
of search.rs reads and writes. -/
structure HeurState where
  killers : Nat → Option Move × Option Move
  history_heuristic : HistoryHeuristics

/-- Searcher::update_heuristics of search.rs, with the side to move of the
searcher board passed explicitly.  The signature order is depth then ply,
exactly as in the source. -/
def update_heuristics (st : HeurState) (side : Color) (depth ply : Nat) (mov : Move)
    (scored_list : List (Move × Int)) (move_index : Nat) : HeurState :=
  let move_type := mov.get_flags.move_type
  if move_type ≠ MoveType.Capture ∧ move_type ≠ MoveType.EnPassantCapture then
    let st :=
      if (st.killers ply).1 ≠ some mov then
        { st with killers := fun p =>
            if p = ply then (some mov, (st.killers ply).1) else st.killers p }
      else st
    let bonus : Int := ((depth * depth : Nat) : Int)
    let st := { st with history_heuristic :=
      st.history_heuristic.update side mov.get_from mov.get_to bonus }
    (scored_list.take move_index).foldl (fun st qm =>
      let qmt := qm.1.get_flags.move_type
      if qmt = MoveType.Capture ∨ qmt = MoveType.EnPassantCapture then st
      else { st with history_heuristic :=
        st.history_heuristic.update side qm.1.get_from qm.1.get_to (-bonus) }) st
  else st

/-- The beta-cutoff call of Searcher::search (and the root loop of
iterative_deepening): both call sites pass the node ply as the first
argument and the remaining depth as the second, into the depth-then-ply
signature of update_heuristics. -/
def search_cutoff_update (st : HeurState) (side : Color) (ply depth : Nat) (mov : Move)
    (scored_list : List (Move × Int)) (move_index : Nat) : HeurState :=
  update_heuristics st side ply depth mov scored_list move_index

/-- Iterator step_by(2): keep the first element and then every second one. -/
def stepBy2 : List Nat → List Nat
  | [] => []
  | [a] => [a]
  | a :: _ :: rest => a :: stepBy2 rest

/-- Searcher::is_three_fold_repetition of search.rs: walk the Zobrist
history backward (the newest entry is the last pushed one), keep the first
halfmove_clock entries, step by two, count entries equal to the current
Zobrist, capped at two, and trigger at two. -/
def is_three_fold_repetition (history : List Nat) (b : Board) : Bool :=
  decide ((((stepBy2 (history.reverse.take b.halfmove_clock)).filter
    (fun z => z = b.zobrist)).take 2).length ≥ 2)

/-- Searcher::push_move of search.rs: make the move and append the new
Zobrist to the history. -/
def push_move (b : Board) (history : List Nat) (mov : Move) : Board × List Nat × Undo :=
  let made := b.make_move mov
  (made.1, history ++ [made.1.zobrist], made.2)

/-- CHECKMATE_SCORE of search.rs. -/
def CHECKMATE_SCORE : Int := 30000

/-- MAX_PLY of search.rs. -/
def MAX_PLY : Nat := 64

/-- CHECKMATE_THRESHOLD of search.rs. -/
def CHECKMATE_THRESHOLD : Int := CHECKMATE_SCORE - 2 * (MAX_PLY : Int)

/-- Bound enum of transposition.rs. -/
inductive Bound
  | Exact
  | Upper
  | Lower
deriving DecidableEq, Repr

/-- Numeric discriminant of a Bound. -/
def Bound.toIdx : Bound → Nat
  | .Exact => 0
  | .Upper => 1
  | .Lower => 2

/-- Bound::from_score of transposition.rs. -/
def Bound.from_score (score alpha beta : Int) : Bound :=
  if score ≥ beta then .Lower
  else if score ≤ alpha then .Upper
  else .Exact

/-- TTEntry::encode_mate of transposition.rs. -/
def encode_mate (score : Int) (ply : Nat) : Int :=
  if score > CHECKMATE_THRESHOLD then score - ply
  else if score < -CHECKMATE_THRESHOLD then score + ply
  else score

/-- One transposition entry: the two u64 words of TTEntry (the atomics
become plain words in this single-thread model). -/
structure TTEntry where
  key : Nat
  data : Nat
deriving DecidableEq, Repr

/-- TTEntry::store packing of transposition.rs:
depth:8, age:8, score:16, bound:8, move:16. -/
def TTEntry.packed (key : Nat) (depth : Nat) (score : Int) (mov : Move) (bound : Bound)
    (age : Nat) : TTEntry :=
  ⟨key, (depth <<< 56 ||| age <<< 48 ||| toU16 score <<< 32 ||| Bound.toIdx bound <<< 16 |||
    mov.val) % M64⟩

/-- TTEntry::get_depth of transposition.rs. -/
def TTEntry.get_depth (e : TTEntry) : Nat := e.data >>> 56

/-- TTEntry::get_age of transposition.rs. -/
def TTEntry.get_age (e : TTEntry) : Nat := (e.data >>> 48) &&& 0xFF

/-- BUCKET_SIZE of transposition.rs. -/
def BUCKET_SIZE : Nat := 2

/-- Transposition table of transposition.rs: an array of two-entry buckets,
the used counter and the index mask. -/
structure TT where
  table : List (List TTEntry)
  used : Nat
  mask : Nat

/-- Rust next_power_of_two on usize: the least power of two that is at
least the input, and 1 on input 0. -/
def nextPow2 (n : Nat) : Nat := 2 ^ Nat.clog 2 n

/-- TT::new of transposition.rs; a TTEntry is 16 bytes. -/
def TT.new (megabytes : Nat) : TT :=
  let entry_size := 16
  let requested_bytes := megabytes * (1 <<< 20)
  let entries := nextPow2 (requested_bytes / entry_size)
  { table := List.replicate entries [⟨0, 0⟩, ⟨0, 0⟩]
    used := 0
    mask := entries - 1 }

/-- TT::store of transposition.rs: within the indexed bucket, first replace
a same-key entry when at least as deep, else the first entry of another
age (incrementing the used counter), else the shallowest entry. -/
def TT.store (tt : TT) (key : Nat) (depth : Nat) (score : Int) (best_move : Move)
    (bound : Bound) (age : Nat) (ply : Nat) : TT :=
  let idx := key &&& tt.mask
  let bucket := tt.table.getD idx []
  let score := encode_mate score ply
  match bucket.findIdx? (fun e => e.key == key) with
  | some j =>
    if depth ≥ (bucket.getD j ⟨0, 0⟩).get_depth then
      let nt := tt.table.set idx (bucket.set j (TTEntry.packed key depth score best_move bound age))
      { tt with table := nt }
    else tt
  | none =>
    match bucket.findIdx? (fun e => e.get_age ≠ age) with
    | some j =>
      let nt := tt.table.set idx (bucket.set j (TTEntry.packed key depth score best_move bound age))
      { tt with table := nt, used := tt.used + 1 }
    | none =>
      let min_idx := (List.range bucket.length).foldl (fun best i =>
        if (bucket.getD i ⟨0, 0⟩).get_depth < (bucket.getD best ⟨0, 0⟩).get_depth then i
        else best) 0
      let nt := tt.table.set idx (bucket.set min_idx (TTEntry.packed key depth score best_move bound age))
      { tt with table := nt }

/-- TT::get_hashfull of transposition.rs: the used counter clamped to the
slot count, scaled to permille. -/
def TT.get_hashfull (tt : TT) : Nat :=
  let total := tt.table.length * BUCKET_SIZE
  let used := min tt.used total
  used * 1000 / total

/-- Arguments of one TT::store call. -/
structure StoreOp where
  key : Nat
  depth : Nat
  score : Int
  mov : Move
  bound : Bound
  age : Nat
  ply : Nat

/-- Fold a sequence of store operations over a table. -/
def applyStores (tt : TT) (ops : List StoreOp) : TT :=
  ops.foldl (fun t o => t.store o.key o.depth o.score o.mov o.bound o.age o.ply) tt

/-- Parsed board of a FEN string, or the empty board when the parse fails;
used to name concrete parsed boards inside theorem statements. -/
def parseOr (s : String) : Board :=
  match Board.new s with
  | .ok b => b
  | .error _ => emptyBoard

/-- Error message of a parse result, as a decidable projection. -/
def errMsg (r : Except String Board) : Option String :=
  match r with
  | .error e => some e
  | .ok _ => none

/-- Insufficient-material property exactly as the specification states it:
no pawns, rooks or queens on the board, and either both sides together have
at most one minor piece, or the only remaining material beyond the two
kings is at most two knights on one side. -/
def specInsufficientMaterial (b : Board) : Prop :=
  (b.bitboards Color.White Piece.Pawn = 0 ∧ b.bitboards Color.Black Piece.Pawn = 0 ∧
   b.bitboards Color.White Piece.Rook = 0 ∧ b.bitboards Color.Black Piece.Rook = 0 ∧
   b.bitboards Color.White Piece.Queen = 0 ∧ b.bitboards Color.Black Piece.Queen = 0) ∧
  (count_ones (b.bitboards Color.White Piece.Knight ||| b.bitboards Color.Black Piece.Knight |||
      b.bitboards Color.White Piece.Bishop ||| b.bitboards Color.Black Piece.Bishop) ≤ 1 ∨
   (b.bitboards Color.White Piece.Bishop = 0 ∧ b.bitboards Color.Black Piece.Bishop = 0 ∧
    ((count_ones (b.bitboards Color.White Piece.Knight) ≤ 2 ∧
      b.bitboards Color.Black Piece.Knight = 0) ∨
     (count_ones (b.bitboards Color.Black Piece.Knight) ≤ 2 ∧
      b.bitboards Color.White Piece.Knight = 0))))

instance (b : Board) : Decidable (specInsufficientMaterial b) := by
  unfold specInsufficientMaterial; infer_instance

/-- History-counter value the claim prescribes after a cutoff at remaining
depth d: old plus d squared minus d squared times old over 20000. -/
def claimHistoryNewValue (old : Int) (depth : Nat) : Int :=
  old + ((depth * depth : Nat) : Int) -
    Int.tdiv (((depth * depth : Nat) : Int) * old) 20000

/-- Legality property of the specification for a non-castling move: after
the move has been made, the king of the side that made it is not attacked
by the opponent. -/
def claimLegalNonCastle (mover : Color) (made : Board) : Bool :=
  !is_square_attacked (tz (made.bitboards mover Piece.King)) mover.toggle made

/-- Number of pseudo-legal moves of a board that the specification calls
legal (all moves being non-castling at its uses here). -/
def claimLegalCount (b : Board) : Nat :=
  ((gen_color_moves b).filter (fun m =>
    claimLegalNonCastle b.side_to_move (b.make_move m).1)).length

/-- Number of ancestor positions, excluding the current position itself at
the end of the history, whose Zobrist equals the current one, along the
same-side-to-move walk bounded by the halfmove clock, as the specification
counts them. -/
def claimAncestorMatches (history : List Nat) (b : Board) : Nat :=
  (((stepBy2 (history.reverse.take b.halfmove_clock)).drop 1).filter
    (fun z => z = b.zobrist)).length

/-- FEN of the C1 pin scenario: White king e1 and pawn d2, Black king e8
and bishop b4 pinning the pawn. -/
def c1fen : String := "4k3/8/8/8/1b6/8/3P4/4K3 w - - 0 1"

/-- The pinned pawn push d2d3 (squares 11 to 19). -/
def c1mov : Move := Move.new 11 19 ⟨.Quiet, .None⟩

/-- Board after the pinned pawn push has been made. -/
def c1after : Board := ((parseOr c1fen).make_move c1mov).1

/-- FEN of the C1 check scenario: White rook a1 and king e1, Black king e8;
the rook lift a1a8 gives check. -/
def c1fenB : String := "4k3/8/8/8/8/8/8/R3K3 w - - 0 1"

/-- The checking rook move a1a8 (squares 0 to 56). -/
def c1movB : Move := Move.new 0 56 ⟨.Quiet, .None⟩

/-- Board after the checking rook move has been made. -/
def c1afterB : Board := ((parseOr c1fenB).make_move c1movB).1

set_option maxRecDepth 400000 in
/-- C1: gen_color_moves followed by make_move and is_legal_move does not
decide legality as the claim states.  In the pin scenario the pseudo-legal
pawn push leaves the White king (the mover) attacked, yet is_legal_move
accepts it; in the check scenario the rook move leaves the White king safe,
yet is_legal_move rejects it.  The defect: is_legal_move binds color to the
side to move of the post-move board, so it tests the opponent of the mover.
Both positions are White to move before the move. -/
theorem c1_legality_filter_wrong_king :
    Board.new c1fen = Except.ok (parseOr c1fen) ∧
    c1mov ∈ gen_color_moves (parseOr c1fen) ∧
    is_legal_move c1mov c1after = true ∧
    is_square_attacked (tz (c1after.bitboards Color.White Piece.King)) Color.Black c1after
      = true ∧
    Board.new c1fenB = Except.ok (parseOr c1fenB) ∧
    c1movB ∈ gen_color_moves (parseOr c1fenB) ∧
    is_legal_move c1movB c1afterB = false ∧
    is_square_attacked (tz (c1afterB.bitboards Color.White Piece.King)) Color.Black c1afterB
      = false :=
  ⟨rfl, by decide, by decide, by decide, rfl, by decide, by decide, by decide⟩

/-- FEN of the C2 scenario: White king e1, bishop f1, rook h1 with the
kingside castling right; g1 is empty, so the castle candidate is generated
although f1 is occupied. -/
def c2fen : String := "4k3/8/8/8/8/8/8/4KB1R w K - 0 1"

/-- The generated kingside castle e1g1 (squares 4 to 6). -/
def c2mov : Move := Move.new 4 6 ⟨.KingSideCastle, .None⟩

/-- Board after making and then undoing the castle. -/
def c2round : Board :=
  ((parseOr c2fen).make_move c2mov).1.undo_move ((parseOr c2fen).make_move c2mov).2

set_option maxRecDepth 400000 in
/-- C2: make_move followed by undo_move does not restore the board for this
pseudo-legal castle.  The rook toggle onto the occupied f1 (square 5)
removes the bishop from the mailbox, and the undo rewrites the square as a
rook, leaving the mailbox different from (and inconsistent with) the
original board. -/
theorem c2_make_undo_not_restored :
    Board.new c2fen = Except.ok (parseOr c2fen) ∧
    c2mov ∈ gen_color_moves (parseOr c2fen) ∧
    (parseOr c2fen).pieces 5 = (Piece.Bishop, Color.White) ∧
    c2round.pieces 5 = (Piece.Rook, Color.White) ∧
    c2round.pieces 5 ≠ (parseOr c2fen).pieces 5 :=
  ⟨rfl, by decide, by decide, by decide, by decide⟩

/-- FEN of the C3 scenario: White king e1, bishop e2, rook h1 with the
kingside castling right, bare Black king e8. -/
def c3fen : String := "4k3/8/8/8/8/8/4B3/4K2R w K - 0 1"

/-- Board parsed from the C3 FEN. -/
def c3b0 : Board := parseOr c3fen

/-- First move of the C3 sequence: the quiet bishop move e2f1. -/
def c3m1 : Move := Move.new 12 5 ⟨.Quiet, .None⟩

/-- Second move: the quiet Black king move e8d8. -/
def c3m2 : Move := Move.new 60 59 ⟨.Quiet, .None⟩

/-- Third move: the generated White kingside castle, whose rook destination
f1 is occupied by the bishop. -/
def c3m3 : Move := Move.new 4 6 ⟨.KingSideCastle, .None⟩

/-- Board and undo record after making e2f1. -/
def c3p1 : Board × Undo := c3b0.make_move c3m1

/-- Board and undo record after also making e8d8. -/
def c3p2 : Board × Undo := c3p1.1.make_move c3m2

/-- Board and undo record after also making the castle. -/
def c3p3 : Board × Undo := c3p2.1.make_move c3m3

/-- Boards along the unwinding of the three moves in reverse order, each
undo applied with the matching record of its make. -/
def c3q2 : Board := c3p3.1.undo_move c3p3.2

def c3q1 : Board := c3q2.undo_move c3p2.2

def c3q0 : Board := c3q1.undo_move c3p1.2

set_option maxRecDepth 400000 in
/-- C3: the incrementally maintained zobrist diverges from
calculate_zobrist on a board obtained from a successful FEN parse followed
by a sequence of make_move and undo_move calls, each move taken from
gen_color_moves of its position and each undo applied with the matching
record in LIFO order, exactly as perft and search walk the tree (they make
and undo every generated move).  The hash stays synchronized through the
three makes and the first two undos; but undoing the castle writes a rook
into the mailbox at f1 (square 5) where the bishop stands, so the final
undo of e2f1 rederives the moved piece from the mailbox as a rook and
toggles the wrong bitboards, while the zobrist field is restored from the
snapshot: the restored hash equals the original position hash, yet no
longer matches a recomputation from the corrupted bitboards. -/
theorem c3_zobrist_desyncs_after_corrupt_castle_undo :
    Board.new c3fen = Except.ok c3b0 ∧
    c3m1 ∈ gen_color_moves c3b0 ∧
    c3m2 ∈ gen_color_moves c3p1.1 ∧
    c3m3 ∈ gen_color_moves c3p2.1 ∧
    c3b0.zobrist = c3b0.calculate_zobrist ∧
    c3p3.1.zobrist = c3p3.1.calculate_zobrist ∧
    c3q1.zobrist = c3q1.calculate_zobrist ∧
    c3p1.1.pieces 5 = (Piece.Bishop, Color.White) ∧
    c3q1.pieces 5 = (Piece.Rook, Color.White) ∧
    c3q0.zobrist = c3b0.zobrist ∧
    c3q0.zobrist ≠ c3q0.calculate_zobrist :=
  ⟨rfl, by decide, by decide, by decide, by decide, by decide, by decide,
   by decide, by decide, by decide, by decide⟩

/-- FEN of the C5 scenario: White king e1 and knight f1 versus the bare
Black king e8, a textbook king-and-knight insufficient-material draw. -/
def c5fen : String := "4k3/8/8/8/8/8/8/4KN2 w - - 0 1"

set_option maxRecDepth 400000 in
/-- C5: is_insufficient_material returns false on king and knight versus
bare king although the stated property (and the KvN case of the function
doc comment) requires true: the either-bare test of the source reads the
White occupancy in both disjuncts, so a bare Black side is never seen. -/
theorem c5_insufficient_material_wrong_side :
    Board.new c5fen = Except.ok (parseOr c5fen) ∧
    (parseOr c5fen).is_insufficient_material = false ∧
    specInsufficientMaterial (parseOr c5fen) :=
  ⟨rfl, by decide, by decide⟩

/-- Heuristic state of the C7 scenario: empty killers, history counter 100
for White a1a2 (squares 0 to 8) and 50 for White b1b2 (squares 1 to 9). -/
def c7st : HeurState :=
  ⟨fun _ => (none, none),
   ⟨fun c f t =>
      if c = Color.White ∧ f = 0 ∧ t = 8 then 100
      else if c = Color.White ∧ f = 1 ∧ t = 9 then 50
      else 0⟩⟩

/-- The cutting quiet move a1a2 of the C7 scenario. -/
def c7mov : Move := Move.new 0 8 ⟨.Quiet, .None⟩

/-- The earlier-tried quiet move b1b2 of the C7 scenario. -/
def c7quiet : Move := Move.new 1 9 ⟨.Quiet, .None⟩

/-- Heuristic state after the beta-cutoff update at ply 1 with remaining
depth 3, with the one earlier-tried quiet move. -/
def c7st1 : HeurState :=
  search_cutoff_update c7st Color.White 1 3 c7mov [(c7quiet, 0)] 1

/-- C7: the history update after a beta cutoff does not follow the claimed
formula.  With remaining depth 3, ply 1 and old counter 100, the claim
prescribes 100 + 9 - 9 * 100 / 20000 = 109, but the code stores 1: the call
site passes ply where the signature expects depth (bonus becomes ply
squared), and the update drops the old value, computing
bonus - old * abs bonus / 20000.  The earlier-tried quiet move with old
counter 50 likewise becomes -1 instead of the claimed 41. -/
theorem c7_history_update_formula_wrong :
    (c7st1.history_heuristic.get 0 8 Color.White = 1 ∧
     claimHistoryNewValue 100 3 = 109 ∧ (1 : Int) ≠ 109) ∧
    (c7st1.history_heuristic.get 1 9 Color.White = -1 ∧
     (50 : Int) + (-9) - Int.tdiv (9 * 50) 20000 = 41 ∧
     c7st1.history_heuristic.get 1 9 Color.White ≠
       50 + (-9) - Int.tdiv (9 * 50) 20000) :=
  ⟨⟨by decide, by decide, by decide⟩, ⟨by decide, by decide, by decide⟩⟩

/-- FEN of the C8 scenario: seven queens a side, a position the FEN parser
accepts whose phase counter is 56, far above the nominal total of 24. -/
def c8fen : String := "qqqqkqqq/8/8/8/8/8/8/QQQQKQQQ w - - 0 1"

set_option maxRecDepth 400000 in
/-- C8 counterexample: the tapering ratio of a FEN-accepted board is not
bounded by 256; for phase 56 the source computes 597 and never clamps. -/
theorem c8_ratio_not_bounded :
    Board.new c8fen = Except.ok (parseOr c8fen) ∧
    (parseOr c8fen).phase = 56 ∧
    phaseRatioValue (parseOr c8fen).phase = 597 ∧
    ¬phaseRatioValue (parseOr c8fen).phase ≤ 256 :=
  ⟨rfl, by decide, by decide, by decide⟩

/-- C8 amended: the ratio used by evaluate equals (phase times 256 plus 12)
divided by 24, rounded to nearest by the half-denominator offset, and it
lies within 0 to 256 whenever the phase is at most the nominal total 24;
the parser does not bound the phase, and larger phases exceed 256. -/
theorem c8_ratio_formula_and_bound (b : Board) (h : b.phase ≤ 24) :
    phaseRatioValue b.phase = (b.phase * 256 + 12) / 24 ∧
    phaseRatioValue b.phase ≤ 256 := by
  constructor
  · rfl
  · have h1 : b.phase * 256 + 12 ≤ 6156 := by omega
    calc phaseRatioValue b.phase = (b.phase * 256 + 12) / 24 := rfl
      _ ≤ 6156 / 24 := Nat.div_le_div_right h1
      _ = 256 := by decide

set_option maxRecDepth 400000 in
/-- C8 witness: the amended statement applied to the parsed start position,
whose phase is exactly 24. -/
theorem c8_ratio_formula_and_bound_witness :
    (parseOr STARTPOS_FEN).phase ≤ 24 ∧
    (phaseRatioValue (parseOr STARTPOS_FEN).phase =
      ((parseOr STARTPOS_FEN).phase * 256 + 12) / 24 ∧
     phaseRatioValue (parseOr STARTPOS_FEN).phase ≤ 256) :=
  ⟨by decide, c8_ratio_formula_and_bound (parseOr STARTPOS_FEN) (by decide)⟩

/-- Storing never resizes the table: every branch of TT::store writes one
entry in place. -/
theorem tt_store_preserves_length (tt : TT) (k d : Nat) (s : Int) (m : Move) (bd : Bound)
    (a p : Nat) : (TT.store tt k d s m bd a p).table.length = tt.table.length := by
  unfold TT.store
  dsimp only
  repeat' split
  all_goals simp [List.length_set]

/-- A fold of store operations never resizes the table. -/
theorem applyStores_preserves_length (ops : List StoreOp) (tt : TT) :
    (applyStores tt ops).table.length = tt.table.length := by
  induction ops generalizing tt with
  | nil => rfl
  | cons o rest ih =>
    simpa [applyStores, tt_store_preserves_length] using
      (ih (tt.store o.key o.depth o.score o.mov o.bound o.age o.ply)).trans
        (tt_store_preserves_length ..)

/-- C10: however the table was sized by TT::new and whatever store sequence
ran, get_hashfull is at most 1000: the used counter (which is incremented
on every age-mismatch replacement, not only on empty-slot transitions) is
clamped to the slot count before the permille division, and the slot count
is positive because next_power_of_two of anything is at least one. -/
theorem c10_hashfull_at_most_1000 (megabytes : Nat) (ops : List StoreOp) :
    (applyStores (TT.new megabytes) ops).get_hashfull ≤ 1000 := by
  set tt := applyStores (TT.new megabytes) ops with htt
  have hlen : tt.table.length = nextPow2 (megabytes * (1 <<< 20) / 16) := by
    rw [htt, applyStores_preserves_length]
    simp [TT.new]
  have hpos : 0 < tt.table.length := by
    rw [hlen]
    exact Nat.pos_pow_of_pos _ (by decide)
  unfold TT.get_hashfull
  dsimp only
  have htot : 0 < tt.table.length * BUCKET_SIZE := by
    have : 0 < BUCKET_SIZE := by decide
    exact Nat.mul_pos hpos this
  calc min tt.used (tt.table.length * BUCKET_SIZE) * 1000 / (tt.table.length * BUCKET_SIZE)
      ≤ (tt.table.length * BUCKET_SIZE) * 1000 / (tt.table.length * BUCKET_SIZE) :=
        Nat.div_le_div_right (Nat.mul_le_mul_right _ (Nat.min_le_right _ _))
    _ = 1000 := by
        rw [Nat.mul_comm]
        exact Nat.mul_div_cancel _ htot

/-- White f2f3, the first move of the C4 scenario line. -/
def c4m1 : Move := Move.new 13 21 ⟨.Quiet, .None⟩

/-- Black e7e5, the second move of the C4 scenario line. -/
def c4m2 : Move := Move.new 52 36 ⟨.DoublePawnPush, .None⟩

/-- White g2g4, the third move of the C4 scenario line. -/
def c4m3 : Move := Move.new 14 30 ⟨.DoublePawnPush, .None⟩

/-- The parsed start position. -/
def c4b0 : Board := parseOr STARTPOS_FEN

/-- Position after 1. f3. -/
def c4b1 : Board := (c4b0.make_move c4m1).1

/-- Position after 1. f3 e5. -/
def c4b2 : Board := (c4b1.make_move c4m2).1

/-- Position after 1. f3 e5 2. g4, a node inside the depth-5 start-position
perft tree where Black has the mating reply d8h4. -/
def c4b3 : Board := (c4b2.make_move c4m3).1

set_option maxRecDepth 1000000 in
set_option maxHeartbeats 2000000 in
/-- C4: the perft leaf counts cannot match the published values.  At the
node after 1. f3 e5 2. g4, reached inside the depth-5 tree from the start
position by moves of gen_color_moves, the engine counts 29 one-ply leaves
while 30 of the pseudo-legal moves are legal per the claim (the mate d8h4
is rejected because is_legal_move tests the wrong king; the node has no
castling candidates, so the non-castle clause of the claim covers every
move).  The one-ply count from the start position itself still agrees (20)
because no first move gives check. -/
theorem c4_perft_diverges_inside_startpos_tree :
    Board.new STARTPOS_FEN = Except.ok c4b0 ∧
    c4m1 ∈ gen_color_moves c4b0 ∧
    c4m2 ∈ gen_color_moves c4b1 ∧
    c4m3 ∈ gen_color_moves c4b2 ∧
    perft c4b0 1 = 20 ∧
    (gen_color_moves c4b3).all (fun m =>
      decide (m.get_flags.move_type ≠ MoveType.KingSideCastle ∧
        m.get_flags.move_type ≠ MoveType.QueenSideCastle)) = true ∧
    perft c4b3 1 = 29 ∧
    claimLegalCount c4b3 = 30 ∧ (29 : Nat) ≠ 30 :=
  ⟨rfl, by decide, by decide, by decide, by decide, by decide, by decide, by decide, by decide⟩

/-- Zobrist history of the C6 scenario: the position with hash 7 occurred
once before (two plies ago) and is the current position (last entry). -/
def c6hist : List Nat := [7, 5, 7]

/-- Searcher board of the C6 scenario: current Zobrist 7, halfmove clock 3,
so the whole history is inside the clock window. -/
def c6board : Board := { emptyBoard with zobrist := 7, halfmove_clock := 3 }

/-- C6 counterexample: is_three_fold_repetition fires although only one
ancestor position matches the current Zobrist, because the backward walk
starts at the current position itself (the last pushed history entry) and
counts it: the current position is only the second occurrence, not the
third the claim requires. -/
theorem c6_triggers_on_second_occurrence :
    c6hist.getLast? = some c6board.zobrist ∧
    is_three_fold_repetition c6hist c6board = true ∧
    claimAncestorMatches c6hist c6board = 1 ∧
    ¬2 ≤ claimAncestorMatches c6hist c6board := by
  refine ⟨by decide, by decide, by decide, by decide⟩

/-- Unfolding step of stepBy2 on any cons cell. -/
theorem stepBy2_cons (a : Nat) (xs : List Nat) :
    stepBy2 (a :: xs) = a :: stepBy2 (xs.drop 1) := by
  cases xs <;> rfl

/-- C6 amended: for every searcher state whose history ends with the
current Zobrist (the invariant push_move maintains), the detector returns
true iff at least one ancestor position at even backward distance within
the halfmove-clock window matches the current Zobrist, i.e. it triggers
when the current position is at least the second occurrence, not the
third. -/
theorem c6_threefold_is_second_occurrence (history : List Nat) (b : Board)
    (hne : history ≠ []) (hlast : history.getLast? = some b.zobrist) :
    is_three_fold_repetition history b = true ↔ 1 ≤ claimAncestorMatches history b := by
  obtain ⟨z0, t, hz⟩ : ∃ z0 t, history.reverse = z0 :: t := by
    cases hr : history.reverse with
    | nil =>
      exact absurd (by simpa using congrArg List.reverse hr) hne
    | cons z0 t => exact ⟨z0, t, rfl⟩
  have hzz : z0 = b.zobrist := by
    have h1 := List.head?_reverse history
    rw [hz, hlast] at h1
    exact Option.some.inj h1
  unfold is_three_fold_repetition claimAncestorMatches
  rw [hz]
  cases hcl : b.halfmove_clock with
  | zero => simp [stepBy2]
  | succ k =>
    rw [List.take_succ_cons, stepBy2_cons, hzz]
    simp [List.filter_cons, List.length_take]

/-- C6 witness: the amended statement applied to the concrete history and
board of the scenario. -/
theorem c6_threefold_is_second_occurrence_witness :
    (c6hist ≠ [] ∧ c6hist.getLast? = some c6board.zobrist) ∧
    (is_three_fold_repetition c6hist c6board = true ↔
      1 ≤ claimAncestorMatches c6hist c6board) :=
  ⟨⟨by decide, by decide⟩,
   c6_threefold_is_second_occurrence c6hist c6board (by decide) (by decide)⟩

/-- Characters of the placement field that belong to no branch of the
parser: not the rank separator, not a digit, and rejected by
Piece::from_char. -/
def badPieceChar (c : Char) : Prop :=
  c ≠ '/' ∧ c.isDigit = false ∧ Piece.from_char c = .error "invalid character"

deriving instance DecidableEq for Except

instance (c : Char) : Decidable (badPieceChar c) := by
  unfold badPieceChar; infer_instance

/-- A placement field containing an unknown piece character always fails:
the parser either errors before reaching it or errors at it (on the file
bound or on from_char). -/
theorem parse_positioning_go_error_of_bad (chars : List Char) :
    ∀ (b : Board) (rank file : Nat), (∃ c ∈ chars, badPieceChar c) →
    (parse_positioning_go b rank file chars).isOk = false := by
  induction chars with
  | nil =>
    intro b rank file h
    obtain ⟨c, hc, _⟩ := h
    exact absurd hc (List.not_mem_nil c)
  | cons a rest ih =>
    intro b rank file h
    obtain ⟨c, hc, hbad⟩ := h
    rcases List.mem_cons.mp hc with rfl | hcrest
    · simp only [parse_positioning_go]
      rw [if_neg hbad.1, if_neg (by simp [hbad.2.1]), hbad.2.2]
      rfl
    · simp only [parse_positioning_go]
      split
      · split
        · rfl
        · exact ih b _ 0 ⟨c, hcrest, hbad⟩
      · split
        · exact ih b _ _ ⟨c, hcrest, hbad⟩
        · split
          · rfl
          · split
            · rfl
            · exact ih _ _ _ ⟨c, hcrest, hbad⟩

/-- Placement token used by the C9 statements. -/
def c9plTok : String := "4k3/8/8/8/8/8/8/4K3"

/-- Board produced by parsing the C9 placement token. -/
def c9plB : Board :=
  match emptyBoard.parse_positioning c9plTok with
  | .ok b => b
  | .error _ => emptyBoard

/-- FEN with an out-of-range en passant field. -/
def c9fenEp : String := "4k3/8/8/8/8/8/8/4K3 w - e9 0 1"

/-- FEN with a non-integer halfmove field. -/
def c9fenHm : String := "4k3/8/8/8/8/8/8/4K3 w - e3 abc 1"

set_option maxRecDepth 400000 in
/-- C9 counterexample: Board::new does not return an error for an
out-of-range en passant field or a non-integer halfmove field; it accepts
the FEN and silently substitutes the defaults (no en passant square, clock
zero), because the en passant parse result is discarded with ok() and the
halfmove parse failure is dropped by the if-let. -/
theorem c9_fields_silently_defaulted :
    Board.new c9fenEp = Except.ok (parseOr c9fenEp) ∧
    (parseOr c9fenEp).en_passant_square = none ∧
    (square_from_uci "e9").isOk = false ∧
    Board.new c9fenHm = Except.ok (parseOr c9fenHm) ∧
    (parseOr c9fenHm).halfmove_clock = 0 ∧
    parse_u8 "abc" = none :=
  ⟨rfl, by decide, by decide, rfl, by decide, by decide⟩

set_option maxRecDepth 400000 in
/-- C9 amended: Board::new reports string-valued errors for unknown piece
characters (any placement containing one fails) and for rank overflow and
underflow, but an en passant field that does not parse as a square yields
none without an error, and a halfmove field that does not parse as a u8
leaves the clock at zero without an error. -/
theorem c9_error_and_default_behaviour :
    (∀ (chars : List Char) (b : Board) (rank file : Nat),
        (∃ c ∈ chars, badPieceChar c) →
        (parse_positioning_go b rank file chars).isOk = false) ∧
    errMsg (Board.new "x3k3/8/8/8/8/8/8/4K3 w - - 0 1") = some "invalid character" ∧
    errMsg (Board.new "8/8/8/8/8/8/8/8/8 w - - 0 1") = some "too many ranks" ∧
    errMsg (Board.new "8/8 w - - 0 1") = some "incomplete board" ∧
    (∀ ep hm : String, (square_from_uci ep).isOk = false →
        (Board.newFromTokens [c9plTok, "w", "-", ep, hm]).map
          (fun b => b.en_passant_square) = Except.ok none) ∧
    (∀ hm : String, parse_u8 hm = none →
        (Board.newFromTokens [c9plTok, "w", "-", "-", hm]).map
          (fun b => b.halfmove_clock) = Except.ok 0) := by
  refine ⟨parse_positioning_go_error_of_bad, by decide, by decide, by decide, ?_, ?_⟩
  · intro ep hm h
    have hnone : (square_from_uci ep).toOption = none := by
      cases hsq : square_from_uci ep with
      | ok v => rw [hsq] at h; exact Bool.noConfusion h
      | error e => rfl
    have hpl : emptyBoard.parse_positioning c9plTok = Except.ok c9plB := rfl
    simp only [Board.newFromTokens, hpl]
    cases hu : parse_u8 hm with
    | none => simp [hu, hnone, Board.set_zobrist_fen, Except.map]
    | some v => simp [hu, hnone, Board.set_zobrist_fen, Except.map]
  · intro hm hu
    have hpl : emptyBoard.parse_positioning c9plTok = Except.ok c9plB := rfl
    have hdash : (square_from_uci "-").toOption = none := rfl
    simp only [Board.newFromTokens, hpl]
    simp [hu, hdash, Board.set_zobrist_fen, Except.map]
    decide

set_option maxRecDepth 400000 in
/-- C9 witness: the amended statement applied to the character x, the en
passant token e9 and the halfmove token abc. -/
theorem c9_error_and_default_behaviour_witness :
    ((∃ c ∈ ['x'], badPieceChar c) ∧
      (parse_positioning_go emptyBoard 7 0 ['x']).isOk = false) ∧
    ((square_from_uci "e9").isOk = false ∧
      (Board.newFromTokens [c9plTok, "w", "-", "e9", "0"]).map
        (fun b => b.en_passant_square) = Except.ok none) ∧
    (parse_u8 "abc" = none ∧
      (Board.newFromTokens [c9plTok, "w", "-", "-", "abc"]).map
        (fun b => b.halfmove_clock) = Except.ok 0) :=
  ⟨⟨⟨'x', by decide, by decide⟩,
    c9_error_and_default_behaviour.1 ['x'] emptyBoard 7 0 ⟨'x', by decide, by decide⟩⟩,
   ⟨by decide, c9_error_and_default_behaviour.2.2.2.2.1 "e9" "0" (by decide)⟩,
   ⟨by decide, c9_error_and_default_behaviour.2.2.2.2.2 "abc" (by decide)⟩⟩
